import Mathlib

/-!
Shallow embedding of the `argp` command-line argument parser
(`src/argparser.hpp` / `src/argparser.tpp`, the `impl::match_option` /
`impl::handle_match` / free `argp::parse` version, which the claims cite).

Descriptors (`OptionBase` subclasses) are modelled as a structure `Opt`
carrying the variant (positional / keyword), the identifier list, the
conversion strategy of the concrete template instantiation, the typed
value and the `is_set_` flag.  C++ exceptions are modelled with `Except`;
the thrown exception type and message are modelled verbatim.  The mutation
of a descriptor through its registry pointer is modelled as `List.set` at
the descriptor's index.  Display-only fields (`name`, `help`,
`is_required`) affect only help rendering and are omitted.
-/

namespace Argp

/-- The two descriptor variants (`split_options::Type`). -/
inductive OptType
  | positional
  | keyword
deriving DecidableEq

/-- Typed payload of a descriptor (`T val` of the template instantiations
used by the claims: `int`, `std::string`, `bool`, and the variadic
string-capture value). -/
inductive Val
  | vInt (n : Int)
  | vStr (s : String)
  | vBool (b : Bool)
  | vList (l : List String)
deriving DecidableEq

/-- Conversion strategy: which `from_string` override / template
specialization the descriptor uses.
`cInt` is the generic `from_string` (stream extraction) instantiated at
`T = int`; `cStr` is the `std::string` specialization; `cBool` is the
`KeywordOption<bool>` specialization; `cRest` is a variadic
string-capture descriptor (see `RestOption_mk`). -/
inductive Conv
  | cInt
  | cStr
  | cBool
  | cRest
deriving DecidableEq

/-- One option descriptor: variant tag, identifier list (keyword variant),
conversion strategy, current value and the `is_set_` flag. -/
structure Opt where
  otype : OptType
  identifiers : List String
  conv : Conv
  val : Val
  is_set : Bool
deriving DecidableEq

/-- Placeholder descriptor used for out-of-range list reads; never
reachable from the driver (indices produced by the matcher are in range). -/
def defaultOpt : Opt :=
  { otype := OptType.positional, identifiers := [], conv := Conv.cStr,
    val := Val.vStr "", is_set := false }

instance : Inhabited Opt := ⟨defaultOpt⟩

/-- `std::isspace` in the default locale (what `operator>>` skips). -/
def isSpaceChar (c : Char) : Bool :=
  c == ' ' || c == '\t' || c == '\n' || c == '\x0b' || c == '\x0c' || c == '\r'

/-- Optional leading sign of a numeric field: returns (negative?, rest). -/
def stripSign : List Char → Bool × List Char
  | '-' :: t => (true, t)
  | '+' :: t => (false, t)
  | cs => (false, cs)

/-- Value of a decimal digit string. -/
def digitsVal (ds : List Char) : Nat :=
  ds.foldl (fun a c => 10 * a + (c.toNat - 48)) 0

def INT_MAX : Int := 2147483647

def INT_MIN : Int := -2147483648

/-- `std::istringstream iss(s); iss >> v;` for `int v`, returning the
value stored in `v` and whether the stream is still good (`!iss` is the
negation of the second component).  Per C++11 `num_get`: leading
whitespace is skipped, an optional sign and a longest run of decimal
digits are read; if no digits are read, `0` is stored and `failbit` is
set; if the value does not fit in `int`, the nearest representable bound
is stored and `failbit` is set; otherwise the value is stored and the
stream stays good (trailing characters are left unread and do not set
`failbit`). -/
def istreamExtractInt (s : String) : Int × Bool :=
  let sc := stripSign (s.data.dropWhile isSpaceChar)
  let ds := sc.2.takeWhile (fun c => c.isDigit)
  if ds.isEmpty then (0, false)
  else
    let v : Int := if sc.1 then -(digitsVal ds : Int) else (digitsVal ds : Int)
    if v < INT_MIN then (INT_MIN, false)
    else if INT_MAX < v then (INT_MAX, false)
    else (v, true)

/-- Index of the parameter token inside the `strings` slice passed to
`from_string`: `strings[0]` for `PositionalOption<T>::from_string`
(the matched token itself), `strings[1]` for
`KeywordOption<T>::from_string` (the token after the identifier). -/
def paramIndex (o : Opt) : Nat :=
  match o.otype with
  | OptType.positional => 0
  | OptType.keyword => 1

/-- `from_string` of the concrete descriptor classes.  Returns the
mutated descriptor and whether the conversion succeeded (`false` models
`throw std::invalid_argument("Could not parse the data.")`).  Note that
the generic (stream-extraction) override writes `this->val` before the
failure check, so the descriptor is mutated even when it throws.
The `cRest` branch is part of the variadic descriptor modelled from the
spec (see `RestOption_mk`): it stores every token after the identifier. -/
def from_string (o : Opt) (strings : List String) : Opt × Bool :=
  match o.conv with
  | Conv.cInt =>
      ({ o with val := Val.vInt (istreamExtractInt (strings.getD (paramIndex o) "")).1 },
       (istreamExtractInt (strings.getD (paramIndex o) "")).2)
  | Conv.cStr => ({ o with val := Val.vStr (strings.getD (paramIndex o) "") }, true)
  | Conv.cBool => ({ o with val := Val.vBool true }, true)
  | Conv.cRest => ({ o with val := Val.vList (strings.drop 1) }, true)

/-- `OptionBase::parse`: runs `from_string` and sets `is_set_` afterwards;
if `from_string` throws, `is_set_` is not written (but the value may
already have been mutated). -/
def OptionBase_parse (o : Opt) (strings : List String) : Opt × Bool :=
  match from_string o strings with
  | (o2, true) => ({ o2 with is_set := true }, true)
  | (o2, false) => (o2, false)

/-- `get_param_count`: `0` for every `PositionalOption<T>`;
`KeywordOption<T>::NUM_OPTS`, which is `1` generically and `0` for the
`bool` specialization; `-1` for the variadic capture descriptor. -/
def get_param_count (o : Opt) : Int :=
  match o.otype with
  | OptType.positional => 0
  | OptType.keyword =>
      match o.conv with
      | Conv.cBool => 0
      | Conv.cRest => -1
      | _ => 1

/-- `matches`: a positional descriptor matches any token while unset
(`return !this->is_set();`); a keyword descriptor matches exactly when
the token equals one of its identifiers. -/
def matchesTok (o : Opt) (tok : String) : Bool :=
  match o.otype with
  | OptType.positional => !o.is_set
  | OptType.keyword => o.identifiers.contains tok

/-- `PositionalOption<T>` constructor: `is_set_` starts `false`
(`OptionBase::OptionBase`), value defaulted or caller supplied. -/
def PositionalOption_mk (conv : Conv) (val : Val) : Opt :=
  { otype := OptType.positional, identifiers := [], conv := conv,
    val := val, is_set := false }

/-- `KeywordOption<T>` constructor: `is_set_` starts `false`, identifiers
caller supplied. -/
def KeywordOption_mk (identifiers : List String) (conv : Conv) (val : Val) : Opt :=
  { otype := OptType.keyword, identifiers := identifiers, conv := conv,
    val := val, is_set := false }

/-- Modelled from the spec: the repository's `src/` has no concrete
descriptor returning `-1` from `get_param_count`, but the `OptionBase`
interface documents `-1` as "this option requires all remaining
arguments" and the spec describes a keyword descriptor with
"consume all remaining" arity doing variadic string capture.  This
descriptor returns `-1` and stores every captured token
(`strings.drop 1`, everything after the matched identifier). -/
def RestOption_mk (identifiers : List String) (val : List String) : Opt :=
  { otype := OptType.keyword, identifiers := identifiers, conv := Conv.cRest,
    val := Val.vList val, is_set := false }

/-- Is the descriptor a keyword descriptor (`get_type() == KEYWORD`)? -/
def isKeywordOpt (o : Opt) : Bool :=
  match o.otype with
  | OptType.keyword => true
  | OptType.positional => false

/-- Is the descriptor positional (`get_type() == POSITIONAL`)? -/
def isPositionalOpt (o : Opt) : Bool :=
  match o.otype with
  | OptType.keyword => false
  | OptType.positional => true

/-- `split_options::split_options`: partition the registry (as indices,
standing for the C++ pointers) into the positional and keyword subsets,
both preserving registration order. -/
def split_options (opts : List Opt) : List Nat × List Nat :=
  ((List.range opts.length).filter (fun i => isPositionalOpt (opts.getD i defaultOpt)),
   (List.range opts.length).filter (fun i => isKeywordOpt (opts.getD i defaultOpt)))

/-- `impl::match_option`: try every keyword descriptor in registration
order, then every positional descriptor in registration order; return
the index of the first whose `matches` succeeds, or `none`. -/
def match_option (tok : String) (opts : List Opt) : Option Nat :=
  match (split_options opts).2.find? (fun i => matchesTok (opts.getD i defaultOpt) tok) with
  | some j => some j
  | none => (split_options opts).1.find? (fun i => matchesTok (opts.getD i defaultOpt) tok)

/-- The C++ exception thrown, by type and message. -/
inductive ArgpError
  | invalidArgumentThrown (msg : String)
  | outOfRangeThrown (msg : String)
deriving DecidableEq

/-- Message carried by a thrown exception. -/
def ArgpError.msg : ArgpError → String
  | ArgpError.invalidArgumentThrown m => m
  | ArgpError.outOfRangeThrown m => m

/-- The spec's ConversionError: `std::invalid_argument` thrown by
`from_string`. -/
def ConversionError : ArgpError :=
  ArgpError.invalidArgumentThrown "Could not parse the data."

/-- The spec's InsufficientArgumentsError: `std::out_of_range` thrown by
`impl::handle_match`. -/
def InsufficientArgumentsError : ArgpError :=
  ArgpError.outOfRangeThrown "Not enough arguments."

/-- The spec's InvalidArityError: `std::invalid_argument` thrown by
`impl::handle_match` when `get_param_count() < -1`. -/
def InvalidArityError : ArgpError :=
  ArgpError.invalidArgumentThrown "Invalid number of requested parameters."

/-- Arity resolution step of `impl::handle_match`: a declared
`param_count` of `-1` resolves to `argc - i - 1` (every remaining token
after the matched one, i.e. `rem.length - 1` over the remaining suffix);
any other declared arity is used as-is. -/
def resolveArity (pc : Int) (remLen : Nat) : Int :=
  if pc = -1 then (remLen : Int) - 1 else pc

/-- `impl::handle_match`, phrased over the remaining token suffix
`rem = argv[i..argc)` (so `rem.length = argc - i`, and the head of `rem`
is the matched token).  Resolves the declared arity via `resolveArity`,
validates `i + param_count < argc` (i.e. `param_count < rem.length`),
slices the matched token plus `param_count` following tokens, and calls
`OptionBase::parse`.  On an error, the (possibly mutated) descriptor is
returned alongside the exception; on success, the updated descriptor and
the unconsumed suffix are returned. -/
def handle_match (o : Opt) (rem : List String) :
    Except (ArgpError × Opt) (Opt × List String) :=
  if get_param_count o < -1 then Except.error (InvalidArityError, o)
  else if (rem.length : Int) ≤ resolveArity (get_param_count o) rem.length then
    Except.error (InsufficientArgumentsError, o)
  else
    match OptionBase_parse o
        (rem.take ((resolveArity (get_param_count o) rem.length).toNat + 1)) with
    | (o2, true) =>
      Except.ok (o2, rem.drop ((resolveArity (get_param_count o) rem.length).toNat + 1))
    | (o2, false) => Except.error (ConversionError, o2)

/-- The scan loop of `argp::parse`, walking the remaining token suffix.
`fuel` only bounds the recursion; the driver supplies
`fuel = rem.length`, which always suffices because every step consumes
at least one token.  `acc` is the unrecognised-token vector built so
far (`push_back` order). -/
def parse_loop :
    Nat → List Opt → List String → List String →
    Except (ArgpError × List Opt) (List String × List Opt)
  | 0, opts, _, acc => Except.ok (acc, opts)
  | _ + 1, opts, [], acc => Except.ok (acc, opts)
  | fuel + 1, opts, tok :: rest, acc =>
    match match_option tok opts with
    | none => parse_loop fuel opts rest (acc ++ [tok])
    | some j =>
      match handle_match (opts.getD j defaultOpt) (tok :: rest) with
      | Except.error (e, o2) => Except.error (e, opts.set j o2)
      | Except.ok (o2, rem2) => parse_loop fuel (opts.set j o2) rem2 acc

/-- `argp::parse`: scan `args` left to right from index `skip`
(`skip_first_n`), returning the unrecognised tokens and the final
descriptor states on success, or the thrown exception and the descriptor
states at the moment of the throw. -/
def parse (args : List String) (opts : List Opt) (skip : Nat) :
    Except (ArgpError × List Opt) (List String × List Opt) :=
  parse_loop (args.drop skip).length opts (args.drop skip) []

/-- The boolean convenience result (`return this->unrecognised.empty();`
of the member version; the spec derives it as "unmatched sequence is
empty").  An aborted (throwing) parse yields no boolean. -/
def parse_success (args : List String) (opts : List Opt) (skip : Nat) : Bool :=
  match parse args opts skip with
  | Except.ok (u, _) => u.isEmpty
  | Except.error _ => false

/-- Spec-side matcher, following the words of the spec: test the token
against every keyword descriptor's `matches` first, in registration
order, returning the first success; only if no keyword descriptor
matches, test positional descriptors in registration order; `none` if
neither subset matches. -/
def spec_match (tok : String) (opts : List Opt) : Option Nat :=
  match (List.range opts.length).find?
      (fun i => isKeywordOpt (opts.getD i defaultOpt) &&
        matchesTok (opts.getD i defaultOpt) tok) with
  | some j => some j
  | none =>
    (List.range opts.length).find?
      (fun i => isPositionalOpt (opts.getD i defaultOpt) &&
        matchesTok (opts.getD i defaultOpt) tok)

/-- Final descriptor states of a parse outcome: the registry after the
scan on success, or at the moment of the throw on error (the observable
partial-mutation state). -/
def finalOpts (r : Except (ArgpError × List Opt) (List String × List Opt)) : List Opt :=
  match r with
  | Except.ok (_, o) => o
  | Except.error (_, o) => o

/-- The exception thrown by a parse outcome, if any. -/
def errOf (r : Except (ArgpError × List Opt) (List String × List Opt)) : Option ArgpError :=
  match r with
  | Except.ok _ => none
  | Except.error (e, _) => some e

/-! Helper lemmas. -/

theorem from_string_is_set (o : Opt) (strings : List String) :
    (from_string o strings).1.is_set = o.is_set := by
  cases h : o.conv <;> simp [from_string, h]

theorem OptionBase_parse_is_set (o : Opt) (s : List String) :
    (OptionBase_parse o s).1.is_set = ((OptionBase_parse o s).2 || o.is_set) := by
  unfold OptionBase_parse
  rcases hfs : from_string o s with ⟨o2, ok⟩
  have h2 : o2.is_set = o.is_set := by
    have h3 := from_string_is_set o s
    rw [hfs] at h3
    exact h3
  cases ok <;> simp [h2]

theorem OptionBase_parse_ok_is_set {o : Opt} {s : List String} {o2 : Opt}
    (h : OptionBase_parse o s = (o2, true)) : o2.is_set = true := by
  have h1 := OptionBase_parse_is_set o s
  rw [h] at h1
  simpa using h1

theorem OptionBase_parse_err_is_set {o : Opt} {s : List String} {o2 : Opt}
    (h : OptionBase_parse o s = (o2, false)) : o2.is_set = o.is_set := by
  have h1 := OptionBase_parse_is_set o s
  rw [h] at h1
  simpa using h1

theorem handle_match_ok_shape {o : Opt} {rem : List String} {o2 : Opt} {rem2 : List String}
    (h : handle_match o rem = Except.ok (o2, rem2)) :
    ∃ k : Nat, rem2 = rem.drop (k + 1) ∧ OptionBase_parse o (rem.take (k + 1)) = (o2, true) := by
  simp only [handle_match] at h
  split at h
  · simp at h
  · split at h
    · simp at h
    · split at h
      next o3 heq =>
        simp only [Except.ok.injEq, Prod.mk.injEq] at h
        exact ⟨_, h.2.symm, h.1 ▸ heq⟩
      next o3 heq => simp at h

theorem handle_match_err_shape {o : Opt} {rem : List String} {e : ArgpError} {o2 : Opt}
    (h : handle_match o rem = Except.error (e, o2)) :
    o2 = o ∨ ∃ k : Nat, OptionBase_parse o (rem.take (k + 1)) = (o2, false) := by
  simp only [handle_match] at h
  split at h
  · simp only [Except.error.injEq, Prod.mk.injEq] at h
    exact Or.inl h.2.symm
  · split at h
    · simp only [Except.error.injEq, Prod.mk.injEq] at h
      exact Or.inl h.2.symm
    · split at h
      next o3 heq => simp at h
      next o3 heq =>
        simp only [Except.error.injEq, Prod.mk.injEq] at h
        exact Or.inr ⟨_, h.2 ▸ heq⟩

theorem handle_match_ok_is_set {o : Opt} {rem : List String} {o2 : Opt} {rem2 : List String}
    (h : handle_match o rem = Except.ok (o2, rem2)) : o2.is_set = true := by
  obtain ⟨k, -, hp⟩ := handle_match_ok_shape h
  exact OptionBase_parse_ok_is_set hp

theorem handle_match_err_is_set {o : Opt} {rem : List String} {e : ArgpError} {o2 : Opt}
    (h : handle_match o rem = Except.error (e, o2)) : o2.is_set = o.is_set := by
  rcases handle_match_err_shape h with h1 | ⟨k, hp⟩
  · rw [h1]
  · exact OptionBase_parse_err_is_set hp

theorem getD_set_cases (l : List α) (j i : Nat) (a d : α) :
    (l.set j a).getD i d = if j = i ∧ j < l.length then a else l.getD i d := by
  by_cases hji : j = i
  · subst hji
    by_cases hlen : j < l.length
    · simp [List.getD_eq_getElem?_getD, List.getElem?_set, hlen]
    · simp [List.getD_eq_getElem?_getD, List.getElem?_set, hlen,
        List.getElem?_eq_none (Nat.le_of_not_lt hlen)]
  · simp [List.getD_eq_getElem?_getD, List.getElem?_set, hji]

theorem parse_loop_ok_sublist :
    ∀ (fuel : Nat) (opts : List Opt) (rem acc u : List String) (opts' : List Opt),
      parse_loop fuel opts rem acc = Except.ok (u, opts') →
      ∃ v, u = acc ++ v ∧ v.Sublist rem := by
  intro fuel
  induction fuel with
  | zero =>
    intro opts rem acc u opts' h
    simp only [parse_loop, Except.ok.injEq, Prod.mk.injEq] at h
    exact ⟨[], by simp [h.1], List.nil_sublist rem⟩
  | succ fuel ih =>
    intro opts rem acc u opts' h
    cases rem with
    | nil =>
      simp only [parse_loop, Except.ok.injEq, Prod.mk.injEq] at h
      exact ⟨[], by simp [h.1], List.nil_sublist _⟩
    | cons tok rest =>
      simp only [parse_loop] at h
      split at h
      · obtain ⟨v, hv, hsub⟩ := ih _ _ _ _ _ h
        refine ⟨tok :: v, by simp [hv], List.Sublist.cons₂ _ hsub⟩
      · split at h
        · simp at h
        · next o2 rem2 heq =>
          obtain ⟨v, hv, hsub⟩ := ih _ _ _ _ _ h
          obtain ⟨k, hk, -⟩ := handle_match_ok_shape heq
          exact ⟨v, hv, hsub.trans (hk ▸ List.drop_sublist _ _)⟩

theorem parse_loop_is_set_mono :
    ∀ (fuel : Nat) (opts : List Opt) (rem acc : List String) (i : Nat),
      (opts.getD i defaultOpt).is_set = true →
      ((finalOpts (parse_loop fuel opts rem acc)).getD i defaultOpt).is_set = true := by
  intro fuel
  induction fuel with
  | zero =>
    intro opts rem acc i hset
    simpa [parse_loop, finalOpts] using hset
  | succ fuel ih =>
    intro opts rem acc i hset
    cases rem with
    | nil => simpa [parse_loop, finalOpts] using hset
    | cons tok rest =>
      simp only [parse_loop]
      split
      · exact ih _ _ _ _ hset
      · next j hmo =>
        split
        · next e o2 heq =>
          have h2 : o2.is_set = (opts.getD j defaultOpt).is_set :=
            handle_match_err_is_set heq
          simp only [finalOpts]
          rw [getD_set_cases]
          split
          · next hc =>
              rw [h2, hc.1]
              exact hset
          · exact hset
        · next o2 rem2 heq =>
          apply ih
          rw [getD_set_cases]
          split
          · exact handle_match_ok_is_set heq
          · exact hset

theorem parse_loop_no_opts :
    ∀ (fuel : Nat) (rem acc : List String), rem.length ≤ fuel →
      parse_loop fuel [] rem acc = Except.ok (acc ++ rem, []) := by
  intro fuel
  induction fuel with
  | zero =>
    intro rem acc hle
    have : rem = [] := List.eq_nil_of_length_eq_zero (Nat.le_zero.mp hle)
    subst this
    simp [parse_loop]
  | succ fuel ih =>
    intro rem acc hle
    cases rem with
    | nil => simp [parse_loop]
    | cons tok rest =>
      have hmo : match_option tok [] = none := rfl
      simp only [parse_loop, hmo]
      rw [ih rest (acc ++ [tok]) (Nat.le_of_succ_le_succ hle)]
      simp

theorem match_option_eq_spec (tok : String) (opts : List Opt) :
    match_option tok opts = spec_match tok opts := by
  unfold match_option spec_match split_options
  simp only [List.find?_filter]
  congr 1 <;>
    · congr 1
      funext i
      simp [Bool.decide_and]

theorem match_option_some {tok : String} {opts : List Opt} {j : Nat}
    (h : match_option tok opts = some j) :
    j < opts.length ∧ matchesTok (opts.getD j defaultOpt) tok = true := by
  unfold match_option at h
  split at h
  · next j2 heq =>
    cases h
    have hm := List.find?_some heq
    have hj := List.mem_of_find?_eq_some heq
    have hj2 := List.mem_range.mp (List.mem_of_mem_filter hj)
    exact ⟨hj2, by simpa using hm⟩
  · have hm := List.find?_some h
    have hj := List.mem_of_find?_eq_some h
    have hj2 := List.mem_range.mp (List.mem_of_mem_filter hj)
    exact ⟨hj2, hm⟩

theorem set_getD_self (l : List α) (j : Nat) (d : α) (h : j < l.length) :
    l.set j (l.getD j d) = l := by
  induction l generalizing j with
  | nil => simp at h
  | cons x xs ih =>
    cases j with
    | zero => simp [List.getD]
    | succ j =>
      simp only [List.set, List.getD_cons_succ, List.cons.injEq, true_and]
      exact ih j (Nat.lt_of_succ_lt_succ h)

theorem isPos_eq_not_isKw (o : Opt) : isPositionalOpt o = !isKeywordOpt o := by
  cases h : o.otype <;> simp [isPositionalOpt, isKeywordOpt, h]

theorem handle_match_insufficient (o : Opt) (rem : List String)
    (h0 : 0 ≤ get_param_count o) (hlen : (rem.length : Int) ≤ get_param_count o) :
    handle_match o rem = Except.error (InsufficientArgumentsError, o) := by
  have h1 : ¬ get_param_count o < -1 := by omega
  have h2 : get_param_count o ≠ -1 := by omega
  unfold handle_match
  simp only [resolveArity, if_neg h2]
  rw [if_neg h1, if_pos hlen]

/-! The claims. -/

/-- C1, counterexample: the claim says a token with trailing garbage
(`"12abc"` for an integer target) fails with a ConversionError, but the
code accepts it — stream extraction reads the numeric prefix `12`,
leaves `"abc"` unread without setting `failbit`, and the parse succeeds
with value `12` and `is_set = true`. -/
theorem C1_trailing_garbage_counterexample :
    parse ["prog", "-n", "12abc"] [KeywordOption_mk ["-n"] Conv.cInt (Val.vInt 0)] 1 =
      Except.ok ([], [{ KeywordOption_mk ["-n"] Conv.cInt (Val.vInt 0) with
        val := Val.vInt 12, is_set := true }]) := by rfl

/-- C1 (amended): for an int-typed keyword or positional descriptor, the
parse of a parameter token is decided by stream extraction
(`istreamExtractInt`): if extraction succeeds (the token has a valid
optionally-signed decimal prefix whose value fits in `int`), the value is
set to the extracted number — trailing garbage after the prefix is
accepted, not rejected — and `is_set` becomes true; parse fails with a
ConversionError only when extraction fails (no digits at all, or
overflow), and then the descriptor keeps the extraction's stored value
with `is_set` still false. -/
theorem C1_numeric_conversion_amended :
    ∀ (ident s : String) (d v : Int) (b : Bool),
      istreamExtractInt s = (v, b) →
      (b = true →
        parse ["prog", ident, s] [KeywordOption_mk [ident] Conv.cInt (Val.vInt d)] 1 =
          Except.ok ([], [{ KeywordOption_mk [ident] Conv.cInt (Val.vInt d) with
            val := Val.vInt v, is_set := true }])
        ∧ parse ["prog", s] [PositionalOption_mk Conv.cInt (Val.vInt d)] 1 =
          Except.ok ([], [{ PositionalOption_mk Conv.cInt (Val.vInt d) with
            val := Val.vInt v, is_set := true }]))
      ∧ (b = false →
        parse ["prog", ident, s] [KeywordOption_mk [ident] Conv.cInt (Val.vInt d)] 1 =
          Except.error (ConversionError, [{ KeywordOption_mk [ident] Conv.cInt (Val.vInt d) with
            val := Val.vInt v }])
        ∧ parse ["prog", s] [PositionalOption_mk Conv.cInt (Val.vInt d)] 1 =
          Except.error (ConversionError, [{ PositionalOption_mk Conv.cInt (Val.vInt d) with
            val := Val.vInt v }])) := by
  intro ident s d v b h
  constructor <;> intro hb <;> subst hb <;> constructor <;>
  · simp [parse, parse_loop, match_option, split_options, handle_match, OptionBase_parse,
      from_string, get_param_count, matchesTok, isKeywordOpt, isPositionalOpt, resolveArity,
      paramIndex, KeywordOption_mk, PositionalOption_mk, List.range_succ, h]

/-- Witness for C1 (amended), at the fully valid token `"42"`. -/
theorem C1_numeric_conversion_witness :
    parse ["prog", "-n", "42"] [KeywordOption_mk ["-n"] Conv.cInt (Val.vInt 0)] 1 =
      Except.ok ([], [{ KeywordOption_mk ["-n"] Conv.cInt (Val.vInt 0) with
        val := Val.vInt 42, is_set := true }]) :=
  ((C1_numeric_conversion_amended "-n" "42" 0 42 true (by rfl)).1 rfl).1

/-- C2: the matcher agrees with the spec-side matcher (`spec_match`):
keyword descriptors are tried first in registration order, positional
descriptors only if no keyword matched, in registration order; it
returns `none` exactly when no descriptor matches; and with one keyword
descriptor with identifier `"-x"` and one positional descriptor, the
token `"-x"` matches the keyword descriptor, never the positional one,
in either registration order and in either positional state. -/
theorem C2_matcher_precedence :
    (∀ (tok : String) (opts : List Opt), match_option tok opts = spec_match tok opts)
    ∧ (∀ (tok : String) (opts : List Opt),
        match_option tok opts = none ↔
          ∀ i, i < opts.length → matchesTok (opts.getD i defaultOpt) tok = false)
    ∧ (∀ (p : Opt) (b : Bool), p.otype = OptType.positional →
        match_option "-x"
            [KeywordOption_mk ["-x"] Conv.cStr (Val.vStr ""), { p with is_set := b }] = some 0
        ∧ match_option "-x"
            [{ p with is_set := b }, KeywordOption_mk ["-x"] Conv.cStr (Val.vStr "")] = some 1) := by
  refine ⟨match_option_eq_spec, ?_, ?_⟩
  · intro tok opts
    rw [match_option_eq_spec]
    unfold spec_match
    constructor
    · intro h i hi
      rcases hA : (List.range opts.length).find?
          (fun i => isKeywordOpt (opts.getD i defaultOpt) &&
            matchesTok (opts.getD i defaultOpt) tok) with _ | j
      swap
      · rw [hA] at h
        simp at h
      rw [hA] at h
      have hAall := List.find?_eq_none.mp hA i (List.mem_range.mpr hi)
      have hBall := List.find?_eq_none.mp h i (List.mem_range.mpr hi)
      simp only [Bool.and_eq_true, not_and] at hAall hBall
      cases hm : matchesTok (opts.getD i defaultOpt) tok
      · rfl
      · cases hk : isKeywordOpt (opts.getD i defaultOpt)
        · have hp : isPositionalOpt (opts.getD i defaultOpt) = true := by
            rw [isPos_eq_not_isKw, hk]
            rfl
          exact absurd hm (hBall hp)
        · exact absurd hm (hAall hk)
    · intro h
      have hgen : ∀ (q : Opt → Bool),
          (List.range opts.length).find?
            (fun i => q (opts.getD i defaultOpt) &&
              matchesTok (opts.getD i defaultOpt) tok) = none := by
        intro q
        rw [List.find?_eq_none]
        intro i hi
        have hm := h i (List.mem_range.mp hi)
        simp only [List.getD_eq_getElem?_getD] at hm
        simp [hm]
      rw [hgen isKeywordOpt, hgen isPositionalOpt]
  · intro p b hp
    constructor <;>
    · unfold match_option split_options
      simp [isKeywordOpt, isPositionalOpt, hp, matchesTok, KeywordOption_mk, List.range_succ]

/-- Witness for C2, at a concrete positional descriptor. -/
theorem C2_matcher_precedence_witness :
    match_option "-x"
        [KeywordOption_mk ["-x"] Conv.cStr (Val.vStr ""),
         { defaultOpt with is_set := false }] = some 0
    ∧ match_option "-x"
        [{ defaultOpt with is_set := false },
         KeywordOption_mk ["-x"] Conv.cStr (Val.vStr "")] = some 1 :=
  C2_matcher_precedence.2.2 defaultOpt false rfl

/-- C3, counterexample to "naming the offending identifier": the
insufficient-arguments failure throws `std::out_of_range` with the fixed
message `"Not enough arguments."`; the message does not contain the
offending identifier `"-x"`, and the error thrown is identical for a
registry whose keyword identifier is `"-y"` instead. -/
theorem C3_fixed_message_counterexample :
    parse ["prog", "-x"] [KeywordOption_mk ["-x"] Conv.cInt (Val.vInt 0)] 1 =
      Except.error (InsufficientArgumentsError,
        [KeywordOption_mk ["-x"] Conv.cInt (Val.vInt 0)])
    ∧ InsufficientArgumentsError.msg = "Not enough arguments."
    ∧ errOf (parse ["prog", "-x"] [KeywordOption_mk ["-x"] Conv.cInt (Val.vInt 0)] 1) =
      errOf (parse ["prog", "-y"] [KeywordOption_mk ["-y"] Conv.cInt (Val.vInt 0)] 1) :=
  ⟨rfl, rfl, rfl⟩

/-- C3 (amended): for every matched descriptor whose resolved arity `a`
is non-negative, if fewer than `a` tokens follow the matched token
(`i + a ≥ n`, i.e. `rem.length ≤ a`), parse fails with an
InsufficientArgumentsError (whose message is the fixed string
`"Not enough arguments."`, not naming the identifier); in particular a
keyword descriptor of arity 1 matched at the last input token makes the
whole parse fail with that error, leaving the registry unchanged. -/
theorem C3_insufficient_arguments_amended :
    (∀ (o : Opt) (rem : List String),
      0 ≤ get_param_count o → (rem.length : Int) ≤ get_param_count o →
      handle_match o rem = Except.error (InsufficientArgumentsError, o))
    ∧ (∀ (prog tok : String) (opts : List Opt) (j : Nat),
      match_option tok opts = some j →
      get_param_count (opts.getD j defaultOpt) = 1 →
      parse [prog, tok] opts 1 = Except.error (InsufficientArgumentsError, opts)) := by
  refine ⟨handle_match_insufficient, ?_⟩
  intro prog tok opts j hmo hpc
  have hj := (match_option_some hmo).1
  have hh := handle_match_insufficient (opts.getD j defaultOpt) [tok]
    (by rw [hpc]; decide) (by rw [hpc]; simp)
  simp only [parse, List.drop_succ_cons, List.drop_zero, List.length_cons,
    List.length_nil, parse_loop, hmo, hh]
  rw [set_getD_self opts j defaultOpt hj]

/-- Witness for C3 (amended): a keyword arity-1 descriptor matched at
the last token. -/
theorem C3_insufficient_arguments_witness :
    parse ["p", "-n"] [KeywordOption_mk ["-n"] Conv.cInt (Val.vInt 0)] 1 =
      Except.error (InsufficientArgumentsError,
        [KeywordOption_mk ["-n"] Conv.cInt (Val.vInt 0)]) :=
  C3_insufficient_arguments_amended.2 "p" "-n"
    [KeywordOption_mk ["-n"] Conv.cInt (Val.vInt 0)] 0 (by rfl) (by rfl)

/-- C4: the unmatched-token sequence returned by a successful parse is a
subsequence (relative order preserved) of the input tokens from the
skip offset onward; the boolean convenience result is true exactly when
it is empty; with no descriptors every scanned token is returned
unmatched, in order; the spec's end-to-end scenario yields exactly
`["--unknown"]`; and a conversion failure aborts the parse with an
error instead of accumulating unrecognised tokens (the later token
`"zzz"` is never reported). -/
theorem C4_unmatched_roundtrip :
    (∀ (args : List String) (opts : List Opt) (skip : Nat) (u : List String) (opts' : List Opt),
        parse args opts skip = Except.ok (u, opts') → u.Sublist (args.drop skip))
    ∧ (∀ (args : List String) (opts : List Opt) (skip : Nat) (u : List String)
        (opts' : List Opt),
        parse args opts skip = Except.ok (u, opts') →
        (parse_success args opts skip = true ↔ u = []))
    ∧ (∀ (args : List String) (skip : Nat),
        parse args [] skip = Except.ok (args.drop skip, []))
    ∧ parse ["prog", "--verbose", "--count", "3", "input.txt", "--unknown"]
        [KeywordOption_mk ["--verbose"] Conv.cBool (Val.vBool false),
         KeywordOption_mk ["--count"] Conv.cInt (Val.vInt 0),
         PositionalOption_mk Conv.cStr (Val.vStr "")] 1 =
      Except.ok (["--unknown"],
        [{ KeywordOption_mk ["--verbose"] Conv.cBool (Val.vBool false) with
            val := Val.vBool true, is_set := true },
         { KeywordOption_mk ["--count"] Conv.cInt (Val.vInt 0) with
            val := Val.vInt 3, is_set := true },
         { PositionalOption_mk Conv.cStr (Val.vStr "") with
            val := Val.vStr "input.txt", is_set := true }])
    ∧ parse ["prog", "-n", "abc", "zzz"] [KeywordOption_mk ["-n"] Conv.cInt (Val.vInt 7)] 1 =
      Except.error (ConversionError,
        [{ KeywordOption_mk ["-n"] Conv.cInt (Val.vInt 7) with val := Val.vInt 0 }]) := by
  refine ⟨?_, ?_, ?_, by rfl, by rfl⟩
  · intro args opts skip u opts' h
    obtain ⟨v, hv, hsub⟩ := parse_loop_ok_sublist _ _ _ _ _ _ h
    simpa [hv] using hsub
  · intro args opts skip u opts' h
    simp [parse_success, h]
  · intro args skip
    exact parse_loop_no_opts _ _ _ (Nat.le_refl _)

/-- Witness for C4: a parse whose unmatched output is a strict
subsequence of the scanned input. -/
theorem C4_unmatched_roundtrip_witness :
    (["zzz"] : List String).Sublist (["p", "a", "zzz"].drop 1) :=
  C4_unmatched_roundtrip.1 ["p", "a", "zzz"] [PositionalOption_mk Conv.cStr (Val.vStr "")] 1
    ["zzz"]
    [{ PositionalOption_mk Conv.cStr (Val.vStr "") with val := Val.vStr "a", is_set := true }]
    (by rfl)

/-- C5: `is_set` starts false at construction of either descriptor kind;
`OptionBase::parse` sets it to true exactly when the conversion does not
fail, and leaves it at its prior value when `from_string` throws; and
across a whole driver run (successful or aborted) a descriptor whose
`is_set` was true never has it reset. -/
theorem C5_is_set_lifecycle :
    (∀ (ids : List String) (conv : Conv) (val : Val),
        (KeywordOption_mk ids conv val).is_set = false)
    ∧ (∀ (conv : Conv) (val : Val), (PositionalOption_mk conv val).is_set = false)
    ∧ (∀ (o : Opt) (strings : List String) (o2 : Opt),
        OptionBase_parse o strings = (o2, true) → o2.is_set = true)
    ∧ (∀ (o : Opt) (strings : List String) (o2 : Opt),
        OptionBase_parse o strings = (o2, false) → o2.is_set = o.is_set)
    ∧ (∀ (args : List String) (opts : List Opt) (skip : Nat) (i : Nat),
        (opts.getD i defaultOpt).is_set = true →
        ((finalOpts (parse args opts skip)).getD i defaultOpt).is_set = true) := by
  refine ⟨fun _ _ _ => rfl, fun _ _ => rfl, ?_, ?_, ?_⟩
  · intro o strings o2 h
    exact OptionBase_parse_ok_is_set h
  · intro o strings o2 h
    exact OptionBase_parse_err_is_set h
  · intro args opts skip i h
    exact parse_loop_is_set_mono _ _ _ _ _ h

/-- Witness for C5: an already-set descriptor stays set across a parse. -/
theorem C5_is_set_lifecycle_witness :
    ((finalOpts (parse ["p", "x"] [{ defaultOpt with is_set := true }] 1)).getD 0
      defaultOpt).is_set = true :=
  C5_is_set_lifecycle.2.2.2.2 ["p", "x"] [{ defaultOpt with is_set := true }] 1 0 (by rfl)

/-- C6: a boolean-flag keyword descriptor has arity 0; its parse always
succeeds, setting the value to true and `is_set` to true regardless of
input; re-triggering is idempotent (parsing an already-parsed flag gives
the same state as parsing once, the value written again and always
true); and repeated occurrences of matching identifiers in one input
leave the flag true and set. -/
theorem C6_flag_semantics :
    (∀ (ids : List String) (v : Val), get_param_count (KeywordOption_mk ids Conv.cBool v) = 0)
    ∧ (∀ (o : Opt) (strings : List String), o.conv = Conv.cBool →
        OptionBase_parse o strings = ({ o with val := Val.vBool true, is_set := true }, true))
    ∧ (∀ (o : Opt) (s t : List String), o.conv = Conv.cBool →
        OptionBase_parse (OptionBase_parse o s).1 t = OptionBase_parse o t)
    ∧ parse ["p", "-f", "--flag", "-f"]
        [KeywordOption_mk ["-f", "--flag"] Conv.cBool (Val.vBool false)] 1 =
      Except.ok ([], [{ KeywordOption_mk ["-f", "--flag"] Conv.cBool (Val.vBool false) with
        val := Val.vBool true, is_set := true }]) := by
  refine ⟨fun _ _ => rfl, ?_, ?_, by rfl⟩
  · intro o strings h
    simp [OptionBase_parse, from_string, h]
  · intro o s t h
    simp [OptionBase_parse, from_string, h]

/-- Witness for C6: parsing a concrete flag. -/
theorem C6_flag_semantics_witness :
    OptionBase_parse (KeywordOption_mk ["-f"] Conv.cBool (Val.vBool false)) ["-f"] =
      ({ KeywordOption_mk ["-f"] Conv.cBool (Val.vBool false) with
          val := Val.vBool true, is_set := true }, true) :=
  C6_flag_semantics.2.1 (KeywordOption_mk ["-f"] Conv.cBool (Val.vBool false)) ["-f"] rfl

/-- C7: a descriptor declaring arity "rest" (`get_param_count = -1`)
matched with `rem` tokens remaining resolves to actual arity
`rem.length - 1` (`n - i - 1`), consumes every remaining token (the
returned suffix is empty, so scanning terminates) and never trips the
insufficient-arguments check; matched at the last input position the
resolved arity is 0 and parse succeeds with a zero-length capture; and
over the driver, `["r1", "r2", "r3"]` after the identifier are all
captured with nothing left unrecognised. -/
theorem C7_rest_arity :
    (∀ (o : Opt) (rem : List String), get_param_count o = -1 → rem ≠ [] →
        resolveArity (get_param_count o) rem.length = (rem.length : Int) - 1
        ∧ handle_match o rem =
          (match OptionBase_parse o rem with
           | (o2, true) => Except.ok (o2, [])
           | (o2, false) => Except.error (ConversionError, o2)))
    ∧ (∀ (ids : List String) (v : List String) (tok : String),
        handle_match (RestOption_mk ids v) [tok] =
          Except.ok ({ RestOption_mk ids v with val := Val.vList [], is_set := true }, []))
    ∧ parse ["prog", "--rest", "r1", "r2", "r3"] [RestOption_mk ["--rest"] []] 1 =
      Except.ok ([], [{ RestOption_mk ["--rest"] [] with
        val := Val.vList ["r1", "r2", "r3"], is_set := true }]) := by
  refine ⟨?_, fun _ _ _ => rfl, by rfl⟩
  intro o rem hpc hne
  have hlen : 1 ≤ rem.length := List.length_pos.mpr hne
  have hra : resolveArity (get_param_count o) rem.length = (rem.length : Int) - 1 := by
    rw [hpc]
    simp [resolveArity]
  refine ⟨hra, ?_⟩
  unfold handle_match
  rw [hra, hpc]
  have h1 : ¬ (-1 : Int) < -1 := by omega
  have h2 : ¬ ((rem.length : Int) ≤ (rem.length : Int) - 1) := by omega
  have h3 : ((rem.length : Int) - 1).toNat + 1 = rem.length := by omega
  rw [if_neg h1, if_neg h2, h3, List.take_length, List.drop_length]

/-- Witness for C7: a concrete rest-arity match in mid-input. -/
theorem C7_rest_arity_witness :
    resolveArity (get_param_count (RestOption_mk ["--rest"] []))
        (["--rest", "r1"] : List String).length =
      ((["--rest", "r1"] : List String).length : Int) - 1
    ∧ handle_match (RestOption_mk ["--rest"] []) ["--rest", "r1"] =
      (match OptionBase_parse (RestOption_mk ["--rest"] []) ["--rest", "r1"] with
       | (o2, true) => Except.ok (o2, [])
       | (o2, false) => Except.error (ConversionError, o2)) :=
  C7_rest_arity.1 (RestOption_mk ["--rest"] []) ["--rest", "r1"] rfl (by simp)

/-- C8: a positional descriptor matches any token exactly while unset,
has arity 0 (it consumes only the matched token), takes the matched
token itself as its one value, and positional descriptors fill in
registration order: with two string positionals and input
`["a", "b"]`, the first receives `"a"` and the second `"b"`. -/
theorem C8_positional_fill_order :
    (∀ (o : Opt) (tok : String), o.otype = OptType.positional →
        matchesTok o tok = !o.is_set)
    ∧ (∀ o : Opt, o.otype = OptType.positional → get_param_count o = 0)
    ∧ (∀ (v : String) (tok : String) (rest : List String),
        OptionBase_parse (PositionalOption_mk Conv.cStr (Val.vStr v)) (tok :: rest) =
          ({ PositionalOption_mk Conv.cStr (Val.vStr v) with
              val := Val.vStr tok, is_set := true }, true))
    ∧ parse ["prog", "a", "b"]
        [PositionalOption_mk Conv.cStr (Val.vStr ""),
         PositionalOption_mk Conv.cStr (Val.vStr "")] 1 =
      Except.ok ([],
        [{ PositionalOption_mk Conv.cStr (Val.vStr "") with val := Val.vStr "a", is_set := true },
         { PositionalOption_mk Conv.cStr (Val.vStr "") with
            val := Val.vStr "b", is_set := true }]) := by
  refine ⟨?_, ?_, fun _ _ _ => rfl, by rfl⟩
  · intro o tok h
    simp [matchesTok, h]
  · intro o h
    simp [get_param_count, h]

/-- Witness for C8: an unset positional descriptor matches a token. -/
theorem C8_positional_fill_order_witness :
    matchesTok (PositionalOption_mk Conv.cStr (Val.vStr "")) "x" =
      !(PositionalOption_mk Conv.cStr (Val.vStr "")).is_set :=
  C8_positional_fill_order.1 (PositionalOption_mk Conv.cStr (Val.vStr "")) "x" rfl

/-- C9: an unset positional descriptor's `matches` ignores the token's
content entirely — it gives the same answer for any two tokens and is
true for every token, including the empty string and dash-led tokens —
so a token like `"-x"` that no keyword identifier equals is captured as
the value of the first unset positional descriptor instead of being
reported unrecognised. -/
theorem C9_positional_ignores_content :
    (∀ (o : Opt) (t1 t2 : String), o.otype = OptType.positional →
        matchesTok o t1 = matchesTok o t2)
    ∧ (∀ (o : Opt) (t : String), o.otype = OptType.positional → o.is_set = false →
        matchesTok o t = true)
    ∧ parse ["prog", "-x"]
        [KeywordOption_mk ["-n"] Conv.cInt (Val.vInt 0),
         PositionalOption_mk Conv.cStr (Val.vStr "")] 1 =
      Except.ok ([],
        [KeywordOption_mk ["-n"] Conv.cInt (Val.vInt 0),
         { PositionalOption_mk Conv.cStr (Val.vStr "") with
            val := Val.vStr "-x", is_set := true }]) := by
  refine ⟨?_, ?_, by rfl⟩
  · intro o t1 t2 h
    simp [matchesTok, h]
  · intro o t h hset
    simp [matchesTok, h, hset]

/-- Witness for C9: an unset positional matches `"-x"` and `""`. -/
theorem C9_positional_ignores_content_witness :
    matchesTok (PositionalOption_mk Conv.cStr (Val.vStr "")) "-x" = true
    ∧ matchesTok (PositionalOption_mk Conv.cStr (Val.vStr "")) "" = true :=
  ⟨C9_positional_ignores_content.2.1 (PositionalOption_mk Conv.cStr (Val.vStr "")) "-x" rfl rfl,
   C9_positional_ignores_content.2.1 (PositionalOption_mk Conv.cStr (Val.vStr "")) "" rfl rfl⟩

/-- C10, counterexample to "overwrites it with 0": on an out-of-range
token the failed extraction stores the clamped bound `INT_MAX`
(2147483647), not 0 — C++11 `num_get` stores the nearest representable
value on overflow — while `is_set` stays false and the error
propagates. -/
theorem C10_overflow_counterexample :
    OptionBase_parse (KeywordOption_mk ["-n"] Conv.cInt (Val.vInt 5)) ["-n", "9999999999"] =
      ({ KeywordOption_mk ["-n"] Conv.cInt (Val.vInt 5) with val := Val.vInt 2147483647 }, false)
    ∧ (2147483647 : Int) ≠ 0
    ∧ parse ["p", "-n", "9999999999"] [KeywordOption_mk ["-n"] Conv.cInt (Val.vInt 5)] 1 =
      Except.error (ConversionError,
        [{ KeywordOption_mk ["-n"] Conv.cInt (Val.vInt 5) with val := Val.vInt 2147483647 }]) :=
  ⟨rfl, by decide, rfl⟩

/-- C10 (amended): when an int conversion fails, the descriptor's stored
value is not preserved — the failed extraction overwrites it with the
value the stream stores, which is 0 for non-numeric content and the
clamped bound `INT_MIN`/`INT_MAX` for out-of-range content — while
`is_set` remains false; there is no atomic rollback (driver level shown
for the non-numeric case, where the prior value 5 becomes 0). -/
theorem C10_failed_conversion_state_amended :
    (∀ (ids : List String) (d : Int) (id2 s : String) (w : Int),
      istreamExtractInt s = (w, false) →
      OptionBase_parse (KeywordOption_mk ids Conv.cInt (Val.vInt d)) [id2, s] =
        ({ KeywordOption_mk ids Conv.cInt (Val.vInt d) with val := Val.vInt w }, false))
    ∧ (∀ (s : String) (w : Int), istreamExtractInt s = (w, false) →
        w = 0 ∨ w = INT_MIN ∨ w = INT_MAX)
    ∧ parse ["p", "-n", "abc"] [KeywordOption_mk ["-n"] Conv.cInt (Val.vInt 5)] 1 =
      Except.error (ConversionError,
        [{ KeywordOption_mk ["-n"] Conv.cInt (Val.vInt 5) with val := Val.vInt 0 }]) := by
  refine ⟨?_, ?_, by rfl⟩
  · intro ids d id2 s w h
    simp [OptionBase_parse, from_string, paramIndex, KeywordOption_mk, h]
  · intro s w h
    simp only [istreamExtractInt] at h
    split_ifs at h <;>
      simp only [Prod.mk.injEq, INT_MIN, INT_MAX, Bool.true_eq_false, and_false] at h ⊢ <;>
      omega

/-- Witness for C10 (amended), at the non-numeric token `"abc"`. -/
theorem C10_failed_conversion_witness :
    OptionBase_parse (KeywordOption_mk ["-n"] Conv.cInt (Val.vInt 5)) ["-n", "abc"] =
      ({ KeywordOption_mk ["-n"] Conv.cInt (Val.vInt 5) with val := Val.vInt 0 }, false) :=
  C10_failed_conversion_state_amended.1 ["-n"] 5 "-n" "abc" 0 (by rfl)

end Argp
